import Mathlib

/-!
Shallow embedding of `src/Portal_Gun_v3_1.ino` (the v3.1 sketch): a two-mode
portal-gun prop controller with two buttons, two PWM LED channels, an OLED
display and a DFPlayer audio module.  Pure state is a `GunState` record holding
the sketch's globals plus two event logs: `audioLog` records every
`audioPlayer.play(track)` command actually issued, `displayLog` records every
display render.  Each Arduino function becomes a state transformer; `millis()`
reads are supplied as an explicit `now` argument, and the blocking `delay`
calls (pure timing) have no modeled effect.  `handleButtons` additionally
returns the list of accepted actions of that poll, in program order.
-/

namespace PortalGun

/-- LED settings from the configuration section. -/
def DIM_BRIGHTNESS : Nat := 30

def MAX_BRIGHTNESS : Nat := 255

def FADE_STEP : Nat := 2

/-- Timing settings from the configuration section. -/
def DEBOUNCE_DELAY : Nat := 50

def BLINK_INTERVAL : Nat := 500

def OLED_UPDATE_INTERVAL : Nat := 200

def PULSE_COUNT : Nat := 8

def BRIGHTNESS_STEP : Nat := 20

/-- Audio file indices (enum AudioTrack). -/
def SOUND_POWER_UP : Nat := 1

def SOUND_BLUE_PORTAL : Nat := 2

def SOUND_RED_PORTAL : Nat := 3

def SOUND_MODE_SWITCH : Nat := 4

/-- enum PortalMode. -/
inductive PortalMode
  | BLUE_MODE
  | RED_MODE
deriving DecidableEq

/-- The two PWM LED output pins (BLUE_LED_PIN = 5, RED_LED_PIN = 6). -/
inductive LedPin
  | BLUE_LED_PIN
  | RED_LED_PIN
deriving DecidableEq

/-- A render on the OLED: either a `displayMessage` screen (two optional text
lines plus the trailing delay), the main status screen composed by
`updateMainDisplay`, or the portal-symbols demo screen of
`runStartupSequence`. -/
inductive DisplayEv
  | message (line1 : String) (line2 : Option String) (delayMs : Nat)
  | mainScreen (mode : PortalMode) (fired : Nat) (audio : Bool)
  | symbols
deriving DecidableEq

/-- The sketch's global variables, plus the two duty cycles last written to the
LED pins and the audio/display event logs.  Button levels are `true` = HIGH. -/
structure GunState where
  currentMode : PortalMode
  isShooting : Bool
  audioEnabled : Bool
  totalPortalsFired : Nat
  lastButtonPress : Nat
  lastBlinkTime : Nat
  lastOLEDUpdate : Nat
  lastToggleState : Bool
  lastShootState : Bool
  onboardLEDState : Bool
  onboardLED : Bool
  blueDuty : Nat
  redDuty : Nat
  audioLog : List Nat
  displayLog : List DisplayEv
deriving DecidableEq

/-- MODE_STRINGS table. -/
def MODE_STRINGS : List String :=
  ["MODE SWITCHING", ">> BLUE PORTAL <<", ">> RED PORTAL <<", "AUTO-SWITCH!",
   "Next: BLUE PORTAL", "Next: RED PORTAL"]

/-- STARTUP_STRINGS table. -/
def STARTUP_STRINGS : List String :=
  ["PORTAL GUN v3.1", "AUDIO: READY", "AUDIO: OFFLINE", "INITIALIZING...",
   "SYSTEMS ONLINE", "READY TO FIRE"]

/-- analogWrite on one of the two LED pins: records the duty cycle. -/
def analogWrite (pin : LedPin) (v : Nat) (s : GunState) : GunState :=
  match pin with
  | .BLUE_LED_PIN => { s with blueDuty := v }
  | .RED_LED_PIN => { s with redDuty := v }

/-- digitalWrite(ONBOARD_LED_PIN, v). -/
def digitalWriteOnboard (v : Bool) (s : GunState) : GunState :=
  { s with onboardLED := v }

/-- displayMessage(line1, line2, delayMs): renders the message screen. -/
def displayMessage (line1 : String) (line2 : Option String) (delayMs : Nat)
    (s : GunState) : GunState :=
  { s with displayLog := s.displayLog ++ [DisplayEv.message line1 line2 delayMs] }

/-- playAudio(track): issues a play command only while audio is enabled and the
track index is in range 1..5. -/
def playAudio (track : Nat) (s : GunState) : GunState :=
  if s.audioEnabled && decide (1 ≤ track) && decide (track ≤ 5) then
    { s with audioLog := s.audioLog ++ [track] }
  else s

/-- The values taken by `step` in the fadeTransition loop
`for (step = 0; step <= DIM_BRIGHTNESS; step += FADE_STEP)`, via fuel
(the loop adds a positive constant each iteration, so `DIM_BRIGHTNESS + 1`
iterations always suffice). -/
def fadeStepsFrom : Nat → Nat → List Nat
  | 0, _ => []
  | fuel + 1, step =>
      if step ≤ DIM_BRIGHTNESS then step :: fadeStepsFrom fuel (step + FADE_STEP)
      else []

def fadeSteps : List Nat := fadeStepsFrom (DIM_BRIGHTNESS + 1) 0

/-- The (fromPin value, toPin value) duty pairs written by `fadeTransition`,
one per loop iteration, followed by the final pair of writes after the loop. -/
def fadeWritePairs : List (Nat × Nat) :=
  (fadeSteps.map fun step => (DIM_BRIGHTNESS - step, step)) ++ [(0, DIM_BRIGHTNESS)]

/-- fadeTransition(fromPin, toPin): each loop iteration writes
`DIM_BRIGHTNESS - step` to the from pin and `step` to the to pin; after the
loop the from pin is set to 0 and the to pin to DIM_BRIGHTNESS. -/
def fadeTransition (fromPin toPin : LedPin) (s : GunState) : GunState :=
  let s1 := fadeSteps.foldl
    (fun acc step => analogWrite toPin step (analogWrite fromPin (DIM_BRIGHTNESS - step) acc)) s
  analogWrite toPin DIM_BRIGHTNESS (analogWrite fromPin 0 s1)

/-- Brightness values of the rising half of one pulse:
`for (b = DIM_BRIGHTNESS; b <= MAX_BRIGHTNESS; b += BRIGHTNESS_STEP)`. -/
def pulseUpFrom : Nat → Nat → List Nat
  | 0, _ => []
  | fuel + 1, b =>
      if b ≤ MAX_BRIGHTNESS then b :: pulseUpFrom fuel (b + BRIGHTNESS_STEP)
      else []

/-- Brightness values of the falling half of one pulse:
`for (b = MAX_BRIGHTNESS; b >= DIM_BRIGHTNESS; b -= BRIGHTNESS_STEP)`. -/
def pulseDownFrom : Nat → Nat → List Nat
  | 0, _ => []
  | fuel + 1, b =>
      if DIM_BRIGHTNESS ≤ b then b :: pulseDownFrom fuel (b - BRIGHTNESS_STEP)
      else []

/-- The brightness values written by one pulse of `performShootingEffect`. -/
def pulseWrites : List Nat :=
  pulseUpFrom (MAX_BRIGHTNESS + 1) DIM_BRIGHTNESS ++
    pulseDownFrom (MAX_BRIGHTNESS + 1) MAX_BRIGHTNESS

/-- performShootingEffect(ledPin): PULSE_COUNT pulses on the active pin,
then a final full-brightness flash. -/
def performShootingEffect (ledPin : LedPin) (s : GunState) : GunState :=
  let s1 := (List.replicate PULSE_COUNT pulseWrites).foldl
    (fun acc ws => ws.foldl (fun a b => analogWrite ledPin b a) acc) s
  analogWrite ledPin MAX_BRIGHTNESS s1

/-- setIdleMode(): dim-idle brightness on the current mode's channel, the
other channel off. -/
def setIdleMode (s : GunState) : GunState :=
  if s.currentMode = PortalMode.BLUE_MODE then
    digitalWriteOnboard true
      (analogWrite .RED_LED_PIN 0 (analogWrite .BLUE_LED_PIN DIM_BRIGHTNESS s))
  else
    analogWrite .BLUE_LED_PIN 0 (analogWrite .RED_LED_PIN DIM_BRIGHTNESS s)

/-- updateMainDisplay(): renders the main status screen unless a shoot
sequence is in progress. -/
def updateMainDisplay (s : GunState) : GunState :=
  if s.isShooting then s
  else
    { s with displayLog := s.displayLog ++
        [DisplayEv.mainScreen s.currentMode s.totalPortalsFired s.audioEnabled] }

/-- togglePortalMode(): flips the mode, plays the mode-switch cue, shows the
mode-switch screen, crossfades the LED channels, and refreshes the main
display.  `now` is the value of millis() (used for lastBlinkTime). -/
def togglePortalMode (now : Nat) (s : GunState) : GunState :=
  let s1 := { s with currentMode :=
    if s.currentMode = PortalMode.BLUE_MODE then PortalMode.RED_MODE
    else PortalMode.BLUE_MODE }
  let s2 := playAudio SOUND_MODE_SWITCH s1
  let s3 :=
    if s2.currentMode = PortalMode.BLUE_MODE then
      fadeTransition .RED_LED_PIN .BLUE_LED_PIN
        (displayMessage (MODE_STRINGS.getD 0 "") (some (MODE_STRINGS.getD 1 "")) 1000
          (digitalWriteOnboard true s2))
    else
      fadeTransition .BLUE_LED_PIN .RED_LED_PIN
        (displayMessage (MODE_STRINGS.getD 0 "") (some (MODE_STRINGS.getD 2 "")) 1000
          (digitalWriteOnboard true
            { s2 with lastBlinkTime := now, onboardLEDState := true }))
  updateMainDisplay s3

/-- autoSwitchMode(): flips the mode after a shoot, shows the auto-switch
screen, and crossfades the LED channels (no audio cue). -/
def autoSwitchMode (now : Nat) (s : GunState) : GunState :=
  let s1 := { s with currentMode :=
    if s.currentMode = PortalMode.BLUE_MODE then PortalMode.RED_MODE
    else PortalMode.BLUE_MODE }
  if s1.currentMode = PortalMode.BLUE_MODE then
    fadeTransition .RED_LED_PIN .BLUE_LED_PIN
      (displayMessage (MODE_STRINGS.getD 3 "") (some (MODE_STRINGS.getD 4 "")) 1500
        (digitalWriteOnboard true s1))
  else
    fadeTransition .BLUE_LED_PIN .RED_LED_PIN
      (displayMessage (MODE_STRINGS.getD 3 "") (some (MODE_STRINGS.getD 5 "")) 1500
        (digitalWriteOnboard true
          { s1 with lastBlinkTime := now, onboardLEDState := true }))

/-- shootPortal(): sets the shooting flag, increments the fired counter, plays
the color-specific firing cue, runs the pulsing effect on the active channel,
auto-switches to the opposite color, clears the flag and refreshes the main
display. -/
def shootPortal (now : Nat) (s : GunState) : GunState :=
  let s1 := { s with isShooting := true, totalPortalsFired := s.totalPortalsFired + 1 }
  let activePin :=
    if s1.currentMode = PortalMode.BLUE_MODE then LedPin.BLUE_LED_PIN
    else LedPin.RED_LED_PIN
  let soundTrack :=
    if s1.currentMode = PortalMode.BLUE_MODE then SOUND_BLUE_PORTAL
    else SOUND_RED_PORTAL
  let s2 := playAudio soundTrack s1
  let s3 := performShootingEffect activePin s2
  let s4 := autoSwitchMode now s3
  let s5 := { s4 with isShooting := false }
  updateMainDisplay s5

/-- Inputs of one `handleButtons` poll: the two raw button levels at entry
(`true` = line reads LOW = pressed) and the millis() value. -/
structure BtnInput where
  toggleLow : Bool
  shootLow : Bool
  now : Nat
deriving DecidableEq

/-- An accepted button action. -/
inductive Action
  | toggle
  | shoot
deriving DecidableEq

/-- handleButtons(): one poll.  The debounce guard is evaluated once on entry;
inside it the toggle branch runs first and the shoot branch second (both can
run in the same poll).  The shoot guard reads the state left by the toggle
branch.  The stored last levels are updated unconditionally at the end.
Also returns the accepted actions of this poll, in program order. -/
def handleButtons (inp : BtnInput) (s : GunState) : GunState × List Action :=
  let togglePressed := inp.toggleLow
  let shootPressed := inp.shootLow
  let r :=
    if DEBOUNCE_DELAY < inp.now - s.lastButtonPress then
      let rA : GunState × List Action :=
        if togglePressed && s.lastToggleState then
          ({ togglePortalMode inp.now s with lastButtonPress := inp.now }, [Action.toggle])
        else (s, [])
      let rB : GunState × List Action :=
        if shootPressed && rA.1.lastShootState && !rA.1.isShooting then
          ({ shootPortal inp.now rA.1 with lastButtonPress := inp.now }, [Action.shoot])
        else (rA.1, [])
      (rB.1, rA.2 ++ rB.2)
    else (s, [])
  ({ r.1 with lastToggleState := !togglePressed, lastShootState := !shootPressed }, r.2)

/-- updateOnboardLED(): solid in blue mode, 500 ms blink in red mode. -/
def updateOnboardLED (now : Nat) (s : GunState) : GunState :=
  if s.currentMode = PortalMode.BLUE_MODE then digitalWriteOnboard true s
  else if BLINK_INTERVAL ≤ now - s.lastBlinkTime then
    { digitalWriteOnboard (!s.onboardLEDState) s with
        onboardLEDState := !s.onboardLEDState, lastBlinkTime := now }
  else s

/-- updateDisplayPeriodically(): refreshes the main screen every 200 ms. -/
def updateDisplayPeriodically (now : Nat) (s : GunState) : GunState :=
  if OLED_UPDATE_INTERVAL ≤ now - s.lastOLEDUpdate then
    { updateMainDisplay s with lastOLEDUpdate := now }
  else s

/-- runStartupSequence(): three startup screens, plus the portal-symbols demo
screen when audio is enabled. -/
def runStartupSequence (s : GunState) : GunState :=
  let s1 := displayMessage (STARTUP_STRINGS.getD 0 "")
    (some (STARTUP_STRINGS.getD (if s.audioEnabled then 1 else 2) "")) 2000 s
  let s2 := displayMessage (STARTUP_STRINGS.getD 3 "") none 800 s1
  let s3 := displayMessage (STARTUP_STRINGS.getD 4 "")
    (some (STARTUP_STRINGS.getD 5 "")) 1500 s2
  if s3.audioEnabled then { s3 with displayLog := s3.displayLog ++ [DisplayEv.symbols] }
  else s3

/-- The global-variable initializers of the sketch. -/
def initGlobals : GunState :=
  { currentMode := PortalMode.BLUE_MODE, isShooting := false, audioEnabled := true,
    totalPortalsFired := 0, lastButtonPress := 0, lastBlinkTime := 0, lastOLEDUpdate := 0,
    lastToggleState := true, lastShootState := true, onboardLEDState := false,
    onboardLED := false, blueDuty := 0, redDuty := 0, audioLog := [], displayLog := [] }

/-- The tail of setup() after the OLED check succeeded: audio initialization
(`audioOk` is whether audioPlayer.begin succeeded; on failure audio is
disabled, on success the power-up cue plays), then the startup sequence, idle
LEDs and the first main-display refresh. -/
def setupAfterDisplay (audioOk : Bool) : GunState :=
  let s := initGlobals
  let s1 := if audioOk then playAudio SOUND_POWER_UP s else { s with audioEnabled := false }
  let s2 := runStartupSequence s1
  let s3 := setIdleMode s2
  updateMainDisplay s3

/-- setup(): `displayOk` is whether display.begin succeeded; on failure the
sketch enters `for(;;);` and never completes, modeled as `none`. -/
def setup (displayOk audioOk : Bool) : Option GunState :=
  if displayOk then some (setupAfterDisplay audioOk) else none

/-- A sequence of `handleButtons` polls, accumulating the accepted actions. -/
def runPolls : List BtnInput → GunState → GunState × List Action
  | [], s => (s, [])
  | inp :: rest, s =>
      let r := handleButtons inp s
      let r2 := runPolls rest r.1
      (r2.1, r.2 ++ r2.2)

/-- A sequence of loop() iterations: each polls the buttons, updates the
onboard LED and periodically refreshes the display. -/
def runMainLoop : List BtnInput → GunState → GunState
  | [], s => s
  | inp :: rest, s =>
      runMainLoop rest
        (updateDisplayPeriodically inp.now (updateOnboardLED inp.now (handleButtons inp s).1))

/-- The whole program: setup, then the main loop over the given inputs;
`none` when setup halted in the OLED failure loop. -/
def runSystem (displayOk audioOk : Bool) (inputs : List BtnInput) : Option GunState :=
  (setup displayOk audioOk).map (runMainLoop inputs)

/-- The opposite portal color. -/
def opposite : PortalMode → PortalMode
  | .BLUE_MODE => .RED_MODE
  | .RED_MODE => .BLUE_MODE

/-- The duty cycle last written to a pin. -/
def dutyOf (pin : LedPin) (s : GunState) : Nat :=
  match pin with
  | .BLUE_LED_PIN => s.blueDuty
  | .RED_LED_PIN => s.redDuty

/-- The idle LED invariant: the channel of the current mode is at dim-idle
brightness and the other channel is off. -/
def ledIdleInv (s : GunState) : Prop :=
  (s.currentMode = PortalMode.BLUE_MODE → s.blueDuty = DIM_BRIGHTNESS ∧ s.redDuty = 0) ∧
  (s.currentMode = PortalMode.RED_MODE → s.redDuty = DIM_BRIGHTNESS ∧ s.blueDuty = 0)

/-- A sequence of toggle events (each with its millis() value). -/
def toggleSeq (times : List Nat) (s : GunState) : GunState :=
  times.foldl (fun acc n => togglePortalMode n acc) s

/-- Erases the two duty-cycle fields; `analogWrite` changes nothing else. -/
def ctrlPart (s : GunState) : GunState :=
  { s with blueDuty := 0, redDuty := 0 }

end PortalGun

namespace PortalGun

theorem opposite_opposite (m : PortalMode) : opposite (opposite m) = m := by
  cases m <;> rfl

theorem analogWrite_ctrlPart (p : LedPin) (v : Nat) (s : GunState) :
    ctrlPart (analogWrite p v s) = ctrlPart s := by
  cases p <;> rfl

theorem foldl_ctrlPart {α : Type} (f : GunState → α → GunState)
    (hf : ∀ s a, ctrlPart (f s a) = ctrlPart s) :
    ∀ (l : List α) (s : GunState), ctrlPart (l.foldl f s) = ctrlPart s
  | [], _ => rfl
  | a :: l, s => (foldl_ctrlPart f hf l (f s a)).trans (hf s a)

theorem fadeTransition_ctrlPart (f t : LedPin) (s : GunState) :
    ctrlPart (fadeTransition f t s) = ctrlPart s := by
  unfold fadeTransition
  rw [analogWrite_ctrlPart, analogWrite_ctrlPart]
  exact foldl_ctrlPart _
    (fun s' st => (analogWrite_ctrlPart t st _).trans (analogWrite_ctrlPart f _ s')) fadeSteps s

theorem performShootingEffect_ctrlPart (p : LedPin) (s : GunState) :
    ctrlPart (performShootingEffect p s) = ctrlPart s := by
  unfold performShootingEffect
  rw [analogWrite_ctrlPart]
  exact foldl_ctrlPart _
    (fun s' ws => foldl_ctrlPart _ (fun s'' b => analogWrite_ctrlPart p b s'') ws s')
    (List.replicate PULSE_COUNT pulseWrites) s

@[simp] theorem fadeTransition_currentMode (f t : LedPin) (s : GunState) :
    (fadeTransition f t s).currentMode = s.currentMode :=
  by have h := congrArg GunState.currentMode (fadeTransition_ctrlPart f t s); exact h

@[simp] theorem fadeTransition_isShooting (f t : LedPin) (s : GunState) :
    (fadeTransition f t s).isShooting = s.isShooting :=
  by have h := congrArg GunState.isShooting (fadeTransition_ctrlPart f t s); exact h

@[simp] theorem fadeTransition_audioEnabled (f t : LedPin) (s : GunState) :
    (fadeTransition f t s).audioEnabled = s.audioEnabled :=
  by have h := congrArg GunState.audioEnabled (fadeTransition_ctrlPart f t s); exact h

@[simp] theorem fadeTransition_totalPortalsFired (f t : LedPin) (s : GunState) :
    (fadeTransition f t s).totalPortalsFired = s.totalPortalsFired :=
  by have h := congrArg GunState.totalPortalsFired (fadeTransition_ctrlPart f t s); exact h

@[simp] theorem fadeTransition_lastButtonPress (f t : LedPin) (s : GunState) :
    (fadeTransition f t s).lastButtonPress = s.lastButtonPress :=
  by have h := congrArg GunState.lastButtonPress (fadeTransition_ctrlPart f t s); exact h

@[simp] theorem fadeTransition_lastToggleState (f t : LedPin) (s : GunState) :
    (fadeTransition f t s).lastToggleState = s.lastToggleState :=
  by have h := congrArg GunState.lastToggleState (fadeTransition_ctrlPart f t s); exact h

@[simp] theorem fadeTransition_lastShootState (f t : LedPin) (s : GunState) :
    (fadeTransition f t s).lastShootState = s.lastShootState :=
  by have h := congrArg GunState.lastShootState (fadeTransition_ctrlPart f t s); exact h

@[simp] theorem fadeTransition_audioLog (f t : LedPin) (s : GunState) :
    (fadeTransition f t s).audioLog = s.audioLog :=
  by have h := congrArg GunState.audioLog (fadeTransition_ctrlPart f t s); exact h

@[simp] theorem performShootingEffect_currentMode (p : LedPin) (s : GunState) :
    (performShootingEffect p s).currentMode = s.currentMode :=
  by have h := congrArg GunState.currentMode (performShootingEffect_ctrlPart p s); exact h

@[simp] theorem performShootingEffect_isShooting (p : LedPin) (s : GunState) :
    (performShootingEffect p s).isShooting = s.isShooting :=
  by have h := congrArg GunState.isShooting (performShootingEffect_ctrlPart p s); exact h

@[simp] theorem performShootingEffect_audioEnabled (p : LedPin) (s : GunState) :
    (performShootingEffect p s).audioEnabled = s.audioEnabled :=
  by have h := congrArg GunState.audioEnabled (performShootingEffect_ctrlPart p s); exact h

@[simp] theorem performShootingEffect_totalPortalsFired (p : LedPin) (s : GunState) :
    (performShootingEffect p s).totalPortalsFired = s.totalPortalsFired :=
  by have h := congrArg GunState.totalPortalsFired (performShootingEffect_ctrlPart p s); exact h

@[simp] theorem performShootingEffect_lastButtonPress (p : LedPin) (s : GunState) :
    (performShootingEffect p s).lastButtonPress = s.lastButtonPress :=
  by have h := congrArg GunState.lastButtonPress (performShootingEffect_ctrlPart p s); exact h

@[simp] theorem performShootingEffect_lastToggleState (p : LedPin) (s : GunState) :
    (performShootingEffect p s).lastToggleState = s.lastToggleState :=
  by have h := congrArg GunState.lastToggleState (performShootingEffect_ctrlPart p s); exact h

@[simp] theorem performShootingEffect_lastShootState (p : LedPin) (s : GunState) :
    (performShootingEffect p s).lastShootState = s.lastShootState :=
  by have h := congrArg GunState.lastShootState (performShootingEffect_ctrlPart p s); exact h

@[simp] theorem performShootingEffect_audioLog (p : LedPin) (s : GunState) :
    (performShootingEffect p s).audioLog = s.audioLog :=
  by have h := congrArg GunState.audioLog (performShootingEffect_ctrlPart p s); exact h

@[simp] theorem fade_RB_blueDuty (s : GunState) :
    (fadeTransition .RED_LED_PIN .BLUE_LED_PIN s).blueDuty = DIM_BRIGHTNESS := rfl

@[simp] theorem fade_RB_redDuty (s : GunState) :
    (fadeTransition .RED_LED_PIN .BLUE_LED_PIN s).redDuty = 0 := rfl

@[simp] theorem fade_BR_blueDuty (s : GunState) :
    (fadeTransition .BLUE_LED_PIN .RED_LED_PIN s).blueDuty = 0 := rfl

@[simp] theorem fade_BR_redDuty (s : GunState) :
    (fadeTransition .BLUE_LED_PIN .RED_LED_PIN s).redDuty = DIM_BRIGHTNESS := rfl

@[simp] theorem playAudio_currentMode (t : Nat) (s : GunState) :
    (playAudio t s).currentMode = s.currentMode := by
  unfold playAudio; split <;> rfl

@[simp] theorem playAudio_isShooting (t : Nat) (s : GunState) :
    (playAudio t s).isShooting = s.isShooting := by
  unfold playAudio; split <;> rfl

@[simp] theorem playAudio_audioEnabled (t : Nat) (s : GunState) :
    (playAudio t s).audioEnabled = s.audioEnabled := by
  unfold playAudio; split <;> rfl

@[simp] theorem playAudio_totalPortalsFired (t : Nat) (s : GunState) :
    (playAudio t s).totalPortalsFired = s.totalPortalsFired := by
  unfold playAudio; split <;> rfl

@[simp] theorem playAudio_lastButtonPress (t : Nat) (s : GunState) :
    (playAudio t s).lastButtonPress = s.lastButtonPress := by
  unfold playAudio; split <;> rfl

@[simp] theorem playAudio_lastToggleState (t : Nat) (s : GunState) :
    (playAudio t s).lastToggleState = s.lastToggleState := by
  unfold playAudio; split <;> rfl

@[simp] theorem playAudio_lastShootState (t : Nat) (s : GunState) :
    (playAudio t s).lastShootState = s.lastShootState := by
  unfold playAudio; split <;> rfl

@[simp] theorem playAudio_blueDuty (t : Nat) (s : GunState) :
    (playAudio t s).blueDuty = s.blueDuty := by
  unfold playAudio; split <;> rfl

@[simp] theorem playAudio_redDuty (t : Nat) (s : GunState) :
    (playAudio t s).redDuty = s.redDuty := by
  unfold playAudio; split <;> rfl

@[simp] theorem updateMainDisplay_currentMode (s : GunState) :
    (updateMainDisplay s).currentMode = s.currentMode := by
  unfold updateMainDisplay; split <;> rfl

@[simp] theorem updateMainDisplay_isShooting (s : GunState) :
    (updateMainDisplay s).isShooting = s.isShooting := by
  unfold updateMainDisplay; split <;> rfl

@[simp] theorem updateMainDisplay_audioEnabled (s : GunState) :
    (updateMainDisplay s).audioEnabled = s.audioEnabled := by
  unfold updateMainDisplay; split <;> rfl

@[simp] theorem updateMainDisplay_totalPortalsFired (s : GunState) :
    (updateMainDisplay s).totalPortalsFired = s.totalPortalsFired := by
  unfold updateMainDisplay; split <;> rfl

@[simp] theorem updateMainDisplay_lastButtonPress (s : GunState) :
    (updateMainDisplay s).lastButtonPress = s.lastButtonPress := by
  unfold updateMainDisplay; split <;> rfl

@[simp] theorem updateMainDisplay_lastToggleState (s : GunState) :
    (updateMainDisplay s).lastToggleState = s.lastToggleState := by
  unfold updateMainDisplay; split <;> rfl

@[simp] theorem updateMainDisplay_lastShootState (s : GunState) :
    (updateMainDisplay s).lastShootState = s.lastShootState := by
  unfold updateMainDisplay; split <;> rfl

@[simp] theorem updateMainDisplay_blueDuty (s : GunState) :
    (updateMainDisplay s).blueDuty = s.blueDuty := by
  unfold updateMainDisplay; split <;> rfl

@[simp] theorem updateMainDisplay_redDuty (s : GunState) :
    (updateMainDisplay s).redDuty = s.redDuty := by
  unfold updateMainDisplay; split <;> rfl

@[simp] theorem updateMainDisplay_audioLog (s : GunState) :
    (updateMainDisplay s).audioLog = s.audioLog := by
  unfold updateMainDisplay; split <;> rfl

end PortalGun

namespace PortalGun

theorem playAudio_audioLog_enabled (t : Nat) (s : GunState) (h : s.audioEnabled = true)
    (h1 : 1 ≤ t) (h5 : t ≤ 5) : (playAudio t s).audioLog = s.audioLog ++ [t] := by
  simp [playAudio, h, h1, h5]

theorem playAudio_disabled (t : Nat) (s : GunState) (h : s.audioEnabled = false) :
    playAudio t s = s := by
  simp [playAudio, h]

@[simp] theorem togglePortalMode_currentMode (now : Nat) (s : GunState) :
    (togglePortalMode now s).currentMode = opposite s.currentMode := by
  cases hm : s.currentMode <;>
    simp [togglePortalMode, hm, opposite, digitalWriteOnboard, displayMessage]

@[simp] theorem togglePortalMode_totalPortalsFired (now : Nat) (s : GunState) :
    (togglePortalMode now s).totalPortalsFired = s.totalPortalsFired := by
  cases hm : s.currentMode <;>
    simp [togglePortalMode, hm, digitalWriteOnboard, displayMessage]

@[simp] theorem togglePortalMode_isShooting (now : Nat) (s : GunState) :
    (togglePortalMode now s).isShooting = s.isShooting := by
  cases hm : s.currentMode <;>
    simp [togglePortalMode, hm, digitalWriteOnboard, displayMessage]

@[simp] theorem togglePortalMode_audioEnabled (now : Nat) (s : GunState) :
    (togglePortalMode now s).audioEnabled = s.audioEnabled := by
  cases hm : s.currentMode <;>
    simp [togglePortalMode, hm, digitalWriteOnboard, displayMessage]

@[simp] theorem togglePortalMode_lastButtonPress (now : Nat) (s : GunState) :
    (togglePortalMode now s).lastButtonPress = s.lastButtonPress := by
  cases hm : s.currentMode <;>
    simp [togglePortalMode, hm, digitalWriteOnboard, displayMessage]

@[simp] theorem togglePortalMode_lastToggleState (now : Nat) (s : GunState) :
    (togglePortalMode now s).lastToggleState = s.lastToggleState := by
  cases hm : s.currentMode <;>
    simp [togglePortalMode, hm, digitalWriteOnboard, displayMessage]

@[simp] theorem togglePortalMode_lastShootState (now : Nat) (s : GunState) :
    (togglePortalMode now s).lastShootState = s.lastShootState := by
  cases hm : s.currentMode <;>
    simp [togglePortalMode, hm, digitalWriteOnboard, displayMessage]

@[simp] theorem togglePortalMode_blueDuty (now : Nat) (s : GunState) :
    (togglePortalMode now s).blueDuty =
      if s.currentMode = PortalMode.BLUE_MODE then 0 else DIM_BRIGHTNESS := by
  cases hm : s.currentMode <;>
    simp [togglePortalMode, hm, digitalWriteOnboard, displayMessage]

@[simp] theorem togglePortalMode_redDuty (now : Nat) (s : GunState) :
    (togglePortalMode now s).redDuty =
      if s.currentMode = PortalMode.BLUE_MODE then DIM_BRIGHTNESS else 0 := by
  cases hm : s.currentMode <;>
    simp [togglePortalMode, hm, digitalWriteOnboard, displayMessage]

@[simp] theorem autoSwitchMode_currentMode (now : Nat) (s : GunState) :
    (autoSwitchMode now s).currentMode = opposite s.currentMode := by
  cases hm : s.currentMode <;>
    simp [autoSwitchMode, hm, opposite, digitalWriteOnboard, displayMessage]

@[simp] theorem autoSwitchMode_totalPortalsFired (now : Nat) (s : GunState) :
    (autoSwitchMode now s).totalPortalsFired = s.totalPortalsFired := by
  cases hm : s.currentMode <;>
    simp [autoSwitchMode, hm, digitalWriteOnboard, displayMessage]

@[simp] theorem autoSwitchMode_isShooting (now : Nat) (s : GunState) :
    (autoSwitchMode now s).isShooting = s.isShooting := by
  cases hm : s.currentMode <;>
    simp [autoSwitchMode, hm, digitalWriteOnboard, displayMessage]

@[simp] theorem autoSwitchMode_audioEnabled (now : Nat) (s : GunState) :
    (autoSwitchMode now s).audioEnabled = s.audioEnabled := by
  cases hm : s.currentMode <;>
    simp [autoSwitchMode, hm, digitalWriteOnboard, displayMessage]

@[simp] theorem autoSwitchMode_lastButtonPress (now : Nat) (s : GunState) :
    (autoSwitchMode now s).lastButtonPress = s.lastButtonPress := by
  cases hm : s.currentMode <;>
    simp [autoSwitchMode, hm, digitalWriteOnboard, displayMessage]

@[simp] theorem autoSwitchMode_lastToggleState (now : Nat) (s : GunState) :
    (autoSwitchMode now s).lastToggleState = s.lastToggleState := by
  cases hm : s.currentMode <;>
    simp [autoSwitchMode, hm, digitalWriteOnboard, displayMessage]

@[simp] theorem autoSwitchMode_lastShootState (now : Nat) (s : GunState) :
    (autoSwitchMode now s).lastShootState = s.lastShootState := by
  cases hm : s.currentMode <;>
    simp [autoSwitchMode, hm, digitalWriteOnboard, displayMessage]

@[simp] theorem autoSwitchMode_audioLog (now : Nat) (s : GunState) :
    (autoSwitchMode now s).audioLog = s.audioLog := by
  cases hm : s.currentMode <;>
    simp [autoSwitchMode, hm, digitalWriteOnboard, displayMessage]

@[simp] theorem autoSwitchMode_blueDuty (now : Nat) (s : GunState) :
    (autoSwitchMode now s).blueDuty =
      if s.currentMode = PortalMode.BLUE_MODE then 0 else DIM_BRIGHTNESS := by
  cases hm : s.currentMode <;>
    simp [autoSwitchMode, hm, digitalWriteOnboard, displayMessage]

@[simp] theorem autoSwitchMode_redDuty (now : Nat) (s : GunState) :
    (autoSwitchMode now s).redDuty =
      if s.currentMode = PortalMode.BLUE_MODE then DIM_BRIGHTNESS else 0 := by
  cases hm : s.currentMode <;>
    simp [autoSwitchMode, hm, digitalWriteOnboard, displayMessage]

@[simp] theorem shootPortal_currentMode (now : Nat) (s : GunState) :
    (shootPortal now s).currentMode = opposite s.currentMode := by
  cases hm : s.currentMode <;> simp [shootPortal, hm, opposite]

@[simp] theorem shootPortal_totalPortalsFired (now : Nat) (s : GunState) :
    (shootPortal now s).totalPortalsFired = s.totalPortalsFired + 1 := by
  cases hm : s.currentMode <;> simp [shootPortal, hm]

@[simp] theorem shootPortal_isShooting (now : Nat) (s : GunState) :
    (shootPortal now s).isShooting = false := by
  cases hm : s.currentMode <;> simp [shootPortal, hm]

@[simp] theorem shootPortal_audioEnabled (now : Nat) (s : GunState) :
    (shootPortal now s).audioEnabled = s.audioEnabled := by
  cases hm : s.currentMode <;> simp [shootPortal, hm]

@[simp] theorem shootPortal_lastButtonPress (now : Nat) (s : GunState) :
    (shootPortal now s).lastButtonPress = s.lastButtonPress := by
  cases hm : s.currentMode <;> simp [shootPortal, hm]

@[simp] theorem shootPortal_lastToggleState (now : Nat) (s : GunState) :
    (shootPortal now s).lastToggleState = s.lastToggleState := by
  cases hm : s.currentMode <;> simp [shootPortal, hm]

@[simp] theorem shootPortal_lastShootState (now : Nat) (s : GunState) :
    (shootPortal now s).lastShootState = s.lastShootState := by
  cases hm : s.currentMode <;> simp [shootPortal, hm]

@[simp] theorem shootPortal_blueDuty (now : Nat) (s : GunState) :
    (shootPortal now s).blueDuty =
      if s.currentMode = PortalMode.BLUE_MODE then 0 else DIM_BRIGHTNESS := by
  cases hm : s.currentMode <;> simp [shootPortal, hm]

@[simp] theorem shootPortal_redDuty (now : Nat) (s : GunState) :
    (shootPortal now s).redDuty =
      if s.currentMode = PortalMode.BLUE_MODE then DIM_BRIGHTNESS else 0 := by
  cases hm : s.currentMode <;> simp [shootPortal, hm]

theorem shootPortal_audioLog (now : Nat) (s : GunState) (h : s.audioEnabled = true) :
    (shootPortal now s).audioLog = s.audioLog ++
      [if s.currentMode = PortalMode.BLUE_MODE then SOUND_BLUE_PORTAL
       else SOUND_RED_PORTAL] := by
  cases hm : s.currentMode <;>
    simp [shootPortal, hm, h, playAudio_audioLog_enabled, SOUND_BLUE_PORTAL, SOUND_RED_PORTAL]

end PortalGun

namespace PortalGun

theorem hb_lastStates (inp : BtnInput) (s : GunState) :
    (handleButtons inp s).1.lastToggleState = !inp.toggleLow ∧
    (handleButtons inp s).1.lastShootState = !inp.shootLow :=
  ⟨rfl, rfl⟩

theorem hb_window_closed (inp : BtnInput) (s : GunState)
    (h : inp.now - s.lastButtonPress ≤ DEBOUNCE_DELAY) :
    (handleButtons inp s).2 = [] := by
  have hn : ¬ DEBOUNCE_DELAY < inp.now - s.lastButtonPress := by omega
  simp [handleButtons, hn]

theorem hb_accept_timestamp (inp : BtnInput) (s : GunState)
    (h : (handleButtons inp s).2 ≠ []) :
    (handleButtons inp s).1.lastButtonPress = inp.now := by
  simp only [handleButtons] at h ⊢
  split_ifs at h ⊢ <;> simp_all

theorem hb_action_cases (inp : BtnInput) (s : GunState) :
    (handleButtons inp s).2 = [] ∨ (handleButtons inp s).2 = [Action.toggle] ∨
    (handleButtons inp s).2 = [Action.shoot] ∨
    (handleButtons inp s).2 = [Action.toggle, Action.shoot] := by
  simp only [handleButtons]
  split_ifs <;> simp

theorem hb_shooting_flag (inp : BtnInput) (s : GunState) (h : s.isShooting = true) :
    Action.shoot ∉ (handleButtons inp s).2 ∧
    (handleButtons inp s).1.totalPortalsFired = s.totalPortalsFired ∧
    (handleButtons inp s).1.isShooting = true := by
  simp only [handleButtons]
  split_ifs <;> simp_all

theorem hb_held (inp : BtnInput) (s : GunState) (h1 : s.lastToggleState = false)
    (h2 : inp.toggleLow = true) (h3 : inp.shootLow = false) :
    handleButtons inp s =
      ({ s with lastToggleState := false, lastShootState := true }, []) := by
  simp [handleButtons, h1, h2, h3]

theorem hb_shoot_pressed_noop (inp : BtnInput) (s : GunState) (h : s.isShooting = true)
    (ht : inp.toggleLow = false) :
    handleButtons inp s =
      ({ s with lastToggleState := true, lastShootState := !inp.shootLow }, []) := by
  simp [handleButtons, h, ht]

theorem hb_audioEnabled (inp : BtnInput) (s : GunState) :
    (handleButtons inp s).1.audioEnabled = s.audioEnabled := by
  simp only [handleButtons]
  split_ifs <;> simp

@[simp] theorem updateOnboardLED_audioEnabled (now : Nat) (s : GunState) :
    (updateOnboardLED now s).audioEnabled = s.audioEnabled := by
  simp only [updateOnboardLED, digitalWriteOnboard]
  split_ifs <;> rfl

@[simp] theorem updateDisplayPeriodically_audioEnabled (now : Nat) (s : GunState) :
    (updateDisplayPeriodically now s).audioEnabled = s.audioEnabled := by
  simp only [updateDisplayPeriodically]
  split_ifs <;> simp

theorem runMainLoop_audioEnabled_inv :
    ∀ (inputs : List BtnInput) (s : GunState),
      (runMainLoop inputs s).audioEnabled = s.audioEnabled
  | [], _ => rfl
  | inp :: rest, s => by
      have h := runMainLoop_audioEnabled_inv rest
        (updateDisplayPeriodically inp.now (updateOnboardLED inp.now (handleButtons inp s).1))
      simp only [runMainLoop]
      rw [h, updateDisplayPeriodically_audioEnabled, updateOnboardLED_audioEnabled,
        hb_audioEnabled]

theorem runPolls_held :
    ∀ (inputs : List BtnInput) (s : GunState), s.lastToggleState = false →
      (∀ i ∈ inputs, i.toggleLow = true ∧ i.shootLow = false) →
      (runPolls inputs s).2 = [] ∧
      (runPolls inputs s).1.currentMode = s.currentMode ∧
      (runPolls inputs s).1.totalPortalsFired = s.totalPortalsFired
  | [], s, _, _ => ⟨rfl, rfl, rfl⟩
  | inp :: rest, s, h, hall => by
      have hi := hall inp (List.mem_cons_self inp rest)
      have heq := hb_held inp s h hi.1 hi.2
      have ih := runPolls_held rest { s with lastToggleState := false, lastShootState := true }
        rfl (fun i hi2 => hall i (List.mem_cons_of_mem inp hi2))
      simp only [runPolls, heq]
      simp_all

end PortalGun

namespace PortalGun

theorem setIdleMode_inv (s : GunState) : ledIdleInv (setIdleMode s) := by
  cases hm : s.currentMode <;>
    simp [setIdleMode, hm, ledIdleInv, analogWrite, digitalWriteOnboard]

theorem fade_final_duty (f t : LedPin) (s : GunState) (h : f ≠ t) :
    dutyOf f (fadeTransition f t s) = 0 ∧
    dutyOf t (fadeTransition f t s) = DIM_BRIGHTNESS := by
  cases f <;> cases t <;> simp_all [dutyOf]

theorem togglePortalMode_inv (now : Nat) (s : GunState) :
    ledIdleInv (togglePortalMode now s) := by
  cases hm : s.currentMode <;> simp [ledIdleInv, hm, opposite]

theorem shootPortal_inv (now : Nat) (s : GunState) :
    ledIdleInv (shootPortal now s) := by
  cases hm : s.currentMode <;> simp [ledIdleInv, hm, opposite]

theorem fadeTransition_eq_foldl_pairs (f t : LedPin) (s : GunState) :
    fadeTransition f t s =
      fadeWritePairs.foldl (fun acc p => analogWrite t p.2 (analogWrite f p.1 acc)) s := by
  simp [fadeTransition, fadeWritePairs, List.foldl_append, List.foldl_map]

end PortalGun

namespace PortalGun

/-- C1: an accepted shoot event plays the firing cue of the starting mode
(blue-fire track for BLUE, red-fire track for RED, when audio is enabled),
increments the fired counter by exactly 1, flips the mode to the opposite of
the starting mode, and ends with the shooting flag cleared; and the concrete
trace BLUE, fired 0 → toggle → RED, fired 0 → shoot → red-fire cue, BLUE,
fired 1 → toggle → RED, fired 1 holds from the post-setup state. -/
theorem shoot_event_spec :
    (∀ (now : Nat) (s : GunState), s.audioEnabled = true →
      (shootPortal now s).audioLog = s.audioLog ++
        [if s.currentMode = PortalMode.BLUE_MODE then SOUND_BLUE_PORTAL
         else SOUND_RED_PORTAL] ∧
      (shootPortal now s).totalPortalsFired = s.totalPortalsFired + 1 ∧
      (shootPortal now s).currentMode = opposite s.currentMode ∧
      (shootPortal now s).isShooting = false) ∧
    ((setupAfterDisplay true).currentMode = PortalMode.BLUE_MODE ∧
     (setupAfterDisplay true).totalPortalsFired = 0 ∧
     (togglePortalMode 10 (setupAfterDisplay true)).currentMode = PortalMode.RED_MODE ∧
     (togglePortalMode 10 (setupAfterDisplay true)).totalPortalsFired = 0 ∧
     (shootPortal 20 (togglePortalMode 10 (setupAfterDisplay true))).audioLog =
       (togglePortalMode 10 (setupAfterDisplay true)).audioLog ++ [SOUND_RED_PORTAL] ∧
     (shootPortal 20 (togglePortalMode 10 (setupAfterDisplay true))).currentMode =
       PortalMode.BLUE_MODE ∧
     (shootPortal 20 (togglePortalMode 10 (setupAfterDisplay true))).totalPortalsFired = 1 ∧
     (togglePortalMode 30 (shootPortal 20 (togglePortalMode 10
       (setupAfterDisplay true)))).currentMode = PortalMode.RED_MODE ∧
     (togglePortalMode 30 (shootPortal 20 (togglePortalMode 10
       (setupAfterDisplay true)))).totalPortalsFired = 1) := by
  constructor
  · intro now s h
    exact ⟨shootPortal_audioLog now s h, shootPortal_totalPortalsFired now s,
      shootPortal_currentMode now s, shootPortal_isShooting now s⟩
  · decide

/-- C1 witness: the general part of `shoot_event_spec` instantiated at the
initial global state (audio enabled). -/
theorem shoot_event_spec_witness :
    (shootPortal 0 initGlobals).audioLog = initGlobals.audioLog ++
      [if initGlobals.currentMode = PortalMode.BLUE_MODE then SOUND_BLUE_PORTAL
       else SOUND_RED_PORTAL] ∧
    (shootPortal 0 initGlobals).totalPortalsFired = initGlobals.totalPortalsFired + 1 ∧
    (shootPortal 0 initGlobals).currentMode = opposite initGlobals.currentMode ∧
    (shootPortal 0 initGlobals).isShooting = false :=
  shoot_event_spec.1 0 initGlobals rfl

/-- C2 counterexample: when the falling edges of both buttons are observed in
the same poll with the debounce window elapsed, `handleButtons` accepts BOTH a
toggle and a shoot in that single poll (the sketch evaluates the debounce
guard once and then runs the two inner branches in sequence), so two actions
are accepted within the same debounce window, refuting the claim that at most
one action is ever accepted. -/
theorem debounce_both_buttons_cex :
    (handleButtons ⟨true, true, 1000⟩ initGlobals).2 = [Action.toggle, Action.shoot] ∧
    (handleButtons ⟨true, true, 1000⟩ initGlobals).1.totalPortalsFired = 1 ∧
    (handleButtons ⟨true, true, 1000⟩ initGlobals).1.audioLog =
      [SOUND_MODE_SWITCH, SOUND_RED_PORTAL] := by
  decide

/-- C2 amended: a poll whose entry time is within the debounce window of the
last accepted action accepts no action at all (so edges observed in DISTINCT
polls within one window yield at most one accepted action); every accepting
poll stamps the shared timestamp with its entry time; and a single poll
accepts at most one toggle and at most one shoot — but it can accept both a
toggle and a shoot when both falling edges are seen in the same poll. -/
theorem debounce_amended :
    (∀ (inp : BtnInput) (s : GunState),
      inp.now - s.lastButtonPress ≤ DEBOUNCE_DELAY → (handleButtons inp s).2 = []) ∧
    (∀ (inp : BtnInput) (s : GunState),
      (handleButtons inp s).2 ≠ [] → (handleButtons inp s).1.lastButtonPress = inp.now) ∧
    (∀ (inp : BtnInput) (s : GunState),
      (handleButtons inp s).2 = [] ∨ (handleButtons inp s).2 = [Action.toggle] ∨
      (handleButtons inp s).2 = [Action.shoot] ∨
      (handleButtons inp s).2 = [Action.toggle, Action.shoot]) :=
  ⟨hb_window_closed, hb_accept_timestamp, hb_action_cases⟩

/-- C2 witness: `debounce_amended` instantiated — a poll 10 ms after the last
accepted action accepts nothing even with both buttons down, and an accepting
poll at 1000 ms stamps the timestamp. -/
theorem debounce_amended_witness :
    (handleButtons ⟨true, true, 10⟩ initGlobals).2 = [] ∧
    (handleButtons ⟨true, true, 1000⟩ initGlobals).1.lastButtonPress = 1000 :=
  ⟨debounce_amended.1 ⟨true, true, 10⟩ initGlobals (by decide),
   debounce_amended.2.1 ⟨true, true, 1000⟩ initGlobals (by decide)⟩

/-- C3 counterexample: with the shooting flag set, a toggle edge with the
debounce window elapsed IS accepted (the toggle branch of `handleButtons` has
no `!isShooting` guard) and changes the mode, refuting the claim that neither
a toggle nor a shoot action is accepted while the flag is set. -/
theorem shooting_flag_toggle_cex :
    (handleButtons ⟨true, false, 1000⟩ { initGlobals with isShooting := true }).2 =
      [Action.toggle] ∧
    (handleButtons ⟨true, false, 1000⟩ { initGlobals with isShooting := true
      }).1.currentMode = PortalMode.RED_MODE := by
  decide

/-- C3 amended: while the shooting flag is set the poller suppresses SHOOT
actions only — no shoot is accepted, the fired counter is unchanged and the
flag stays set — but toggle actions are not gated by the flag. -/
theorem shooting_flag_suppression_amended :
    ∀ (inp : BtnInput) (s : GunState), s.isShooting = true →
      Action.shoot ∉ (handleButtons inp s).2 ∧
      (handleButtons inp s).1.totalPortalsFired = s.totalPortalsFired ∧
      (handleButtons inp s).1.isShooting = true :=
  hb_shooting_flag

/-- C3 witness: `shooting_flag_suppression_amended` at a concrete shooting
state with both button inputs. -/
theorem shooting_flag_suppression_amended_witness :
    Action.shoot ∉ (handleButtons ⟨true, true, 1000⟩
      { initGlobals with isShooting := true }).2 ∧
    (handleButtons ⟨true, true, 1000⟩
      { initGlobals with isShooting := true }).1.totalPortalsFired =
      ({ initGlobals with isShooting := true } : GunState).totalPortalsFired ∧
    (handleButtons ⟨true, true, 1000⟩
      { initGlobals with isShooting := true }).1.isShooting = true :=
  shooting_flag_suppression_amended ⟨true, true, 1000⟩
    { initGlobals with isShooting := true } rfl

/-- C4: toggling flips the mode to its opposite, two consecutive toggles
restore the original mode (involution), a toggle never leaves the mode
unchanged, and over any finite sequence of toggles the mode alternates
strictly with the parity of the number of toggles. -/
theorem toggle_alternation :
    ∀ (now1 now2 : Nat) (s : GunState),
      (togglePortalMode now1 s).currentMode = opposite s.currentMode ∧
      (togglePortalMode now2 (togglePortalMode now1 s)).currentMode = s.currentMode ∧
      (togglePortalMode now1 s).currentMode ≠ s.currentMode ∧
      ∀ times : List Nat, (toggleSeq times s).currentMode =
        (if times.length % 2 = 0 then s.currentMode else opposite s.currentMode) := by
  intro now1 now2 s
  refine ⟨togglePortalMode_currentMode now1 s, ?_, ?_, ?_⟩
  · rw [togglePortalMode_currentMode, togglePortalMode_currentMode, opposite_opposite]
  · rw [togglePortalMode_currentMode]
    cases hsm : s.currentMode <;> simp [opposite]
  · intro times
    induction times generalizing s with
    | nil => simp [toggleSeq]
    | cons n ts ih =>
        have h2 := ih (togglePortalMode n s)
        simp only [toggleSeq] at h2 ⊢
        rw [List.foldl_cons, h2, togglePortalMode_currentMode]
        by_cases hp : ts.length % 2 = 0
        · have hq : ¬ (ts.length + 1) % 2 = 0 := by omega
          simp [hp, hq]
        · have hq : (ts.length + 1) % 2 = 0 := by omega
          simp [hp, hq, opposite_opposite]

/-- C5: while the shooting flag is set, a poll presenting only a shoot press
(toggle line not asserted) accepts nothing: no shoot sequence starts and the
mode, the fired counter and the audio log are unchanged. -/
theorem second_shoot_noop :
    ∀ (inp : BtnInput) (s : GunState), s.isShooting = true → inp.toggleLow = false →
      (handleButtons inp s).2 = [] ∧
      (handleButtons inp s).1.currentMode = s.currentMode ∧
      (handleButtons inp s).1.totalPortalsFired = s.totalPortalsFired ∧
      (handleButtons inp s).1.audioLog = s.audioLog := by
  intro inp s h ht
  rw [hb_shoot_pressed_noop inp s h ht]
  exact ⟨rfl, rfl, rfl, rfl⟩

/-- C5 witness: `second_shoot_noop` at a concrete shooting state with the
shoot button down. -/
theorem second_shoot_noop_witness :
    (handleButtons ⟨false, true, 1000⟩ { initGlobals with isShooting := true }).2 = [] ∧
    (handleButtons ⟨false, true, 1000⟩
      { initGlobals with isShooting := true }).1.currentMode =
      ({ initGlobals with isShooting := true } : GunState).currentMode ∧
    (handleButtons ⟨false, true, 1000⟩
      { initGlobals with isShooting := true }).1.totalPortalsFired =
      ({ initGlobals with isShooting := true } : GunState).totalPortalsFired ∧
    (handleButtons ⟨false, true, 1000⟩
      { initGlobals with isShooting := true }).1.audioLog =
      ({ initGlobals with isShooting := true } : GunState).audioLog :=
  second_shoot_noop ⟨false, true, 1000⟩ { initGlobals with isShooting := true } rfl rfl

/-- C6: after setIdleMode, and after every completed togglePortalMode and
shootPortal, exactly one color is active — the channel of the current mode is
at dim-idle brightness (30) and the other at 0 — and every
fadeTransition(from, to) on distinct pins ends with the from channel at 0 and
the to channel at dim-idle brightness. -/
theorem led_idle_invariant :
    (∀ s : GunState, ledIdleInv (setIdleMode s)) ∧
    (∀ (f t : LedPin) (s : GunState), f ≠ t →
      dutyOf f (fadeTransition f t s) = 0 ∧
      dutyOf t (fadeTransition f t s) = DIM_BRIGHTNESS) ∧
    (∀ (now : Nat) (s : GunState), ledIdleInv (togglePortalMode now s)) ∧
    (∀ (now : Nat) (s : GunState), ledIdleInv (shootPortal now s)) :=
  ⟨setIdleMode_inv, fade_final_duty, togglePortalMode_inv, shootPortal_inv⟩

/-- C6 witness: `led_idle_invariant` instantiated at the initial state and the
blue-to-red pin pair. -/
theorem led_idle_invariant_witness :
    ledIdleInv (setIdleMode initGlobals) ∧
    (dutyOf LedPin.BLUE_LED_PIN
        (fadeTransition LedPin.BLUE_LED_PIN LedPin.RED_LED_PIN initGlobals) = 0 ∧
      dutyOf LedPin.RED_LED_PIN
        (fadeTransition LedPin.BLUE_LED_PIN LedPin.RED_LED_PIN initGlobals) =
        DIM_BRIGHTNESS) ∧
    ledIdleInv (togglePortalMode 0 initGlobals) ∧
    ledIdleInv (shootPortal 0 initGlobals) :=
  ⟨led_idle_invariant.1 initGlobals,
   led_idle_invariant.2.1 LedPin.BLUE_LED_PIN LedPin.RED_LED_PIN initGlobals (by decide),
   led_idle_invariant.2.2.1 0 initGlobals,
   led_idle_invariant.2.2.2 0 initGlobals⟩

/-- C7: when the audio module fails to initialize, setup still completes with
the audio-enabled flag false; the flag is never changed by the main loop;
every playAudio call on an audio-disabled state is a complete no-op (no play
command issued, state unchanged); the main display still renders normally
whenever not shooting; and toggling and shooting behave normally regardless
of the flag. -/
theorem audio_failure_degraded :
    setup true false = some (setupAfterDisplay false) ∧
    (setupAfterDisplay false).audioEnabled = false ∧
    (∀ (inputs : List BtnInput) (s : GunState),
      (runMainLoop inputs s).audioEnabled = s.audioEnabled) ∧
    (∀ (track : Nat) (s : GunState), s.audioEnabled = false → playAudio track s = s) ∧
    (∀ s : GunState, s.isShooting = false →
      updateMainDisplay s = { s with displayLog := s.displayLog ++
        [DisplayEv.mainScreen s.currentMode s.totalPortalsFired s.audioEnabled] }) ∧
    (∀ (now : Nat) (s : GunState),
      (togglePortalMode now s).currentMode = opposite s.currentMode ∧
      (shootPortal now s).totalPortalsFired = s.totalPortalsFired + 1) := by
  refine ⟨rfl, rfl, runMainLoop_audioEnabled_inv, ?_, ?_, ?_⟩
  · intro track s h
    exact playAudio_disabled track s h
  · intro s h
    simp [updateMainDisplay, h]
  · intro now s
    exact ⟨togglePortalMode_currentMode now s, shootPortal_totalPortalsFired now s⟩

/-- C7 witness: `audio_failure_degraded` instantiated — playAudio is a no-op
on the audio-disabled post-setup state, and the main display still renders on
the initial state. -/
theorem audio_failure_degraded_witness :
    playAudio 3 (setupAfterDisplay false) = setupAfterDisplay false ∧
    updateMainDisplay initGlobals = { initGlobals with displayLog :=
      initGlobals.displayLog ++ [DisplayEv.mainScreen initGlobals.currentMode
        initGlobals.totalPortalsFired initGlobals.audioEnabled] } :=
  ⟨audio_failure_degraded.2.2.2.1 3 (setupAfterDisplay false) rfl,
   audio_failure_degraded.2.2.2.2.1 initGlobals rfl⟩

/-- C8: when the display fails to initialize, setup never completes (the
sketch spins in `for(;;);`, modeled as `none`) and the whole program produces
no state: the main loop is never entered and no operation executes, for every
audio outcome and every input sequence. -/
theorem display_failure_halts :
    ∀ (audioOk : Bool) (inputs : List BtnInput),
      setup false audioOk = none ∧ runSystem false audioOk inputs = none := by
  intro a i
  exact ⟨rfl, rfl⟩

/-- C9: the stored last level of each button is overwritten unconditionally on
every poll with the level just read; a poll inside the debounce window
accepts nothing (the press is discarded, not deferred); and once the stored
toggle level is low, holding the toggle button through any further polls
(shoot line idle) never accepts any action and leaves the mode and fired
counter unchanged — a new high-to-low edge after release is required. -/
theorem missed_press_discarded :
    (∀ (inp : BtnInput) (s : GunState),
      (handleButtons inp s).1.lastToggleState = !inp.toggleLow ∧
      (handleButtons inp s).1.lastShootState = !inp.shootLow) ∧
    (∀ (inp : BtnInput) (s : GunState),
      inp.now - s.lastButtonPress ≤ DEBOUNCE_DELAY → (handleButtons inp s).2 = []) ∧
    (∀ (inputs : List BtnInput) (s : GunState), s.lastToggleState = false →
      (∀ i ∈ inputs, i.toggleLow = true ∧ i.shootLow = false) →
      (runPolls inputs s).2 = [] ∧
      (runPolls inputs s).1.currentMode = s.currentMode ∧
      (runPolls inputs s).1.totalPortalsFired = s.totalPortalsFired) :=
  ⟨hb_lastStates, hb_window_closed, runPolls_held⟩

/-- C9 witness: `missed_press_discarded` instantiated — an in-window press is
discarded, and a toggle button held low over two later polls fires nothing. -/
theorem missed_press_discarded_witness :
    (handleButtons ⟨true, false, 10⟩ initGlobals).2 = [] ∧
    ((runPolls [⟨true, false, 1000⟩, ⟨true, false, 2000⟩]
        { initGlobals with lastToggleState := false }).2 = [] ∧
      (runPolls [⟨true, false, 1000⟩, ⟨true, false, 2000⟩]
        { initGlobals with lastToggleState := false }).1.currentMode =
        ({ initGlobals with lastToggleState := false } : GunState).currentMode ∧
      (runPolls [⟨true, false, 1000⟩, ⟨true, false, 2000⟩]
        { initGlobals with lastToggleState := false }).1.totalPortalsFired =
        ({ initGlobals with lastToggleState := false } : GunState).totalPortalsFired) :=
  ⟨missed_press_discarded.2.1 ⟨true, false, 10⟩ initGlobals (by decide),
   missed_press_discarded.2.2 [⟨true, false, 1000⟩, ⟨true, false, 2000⟩]
     { initGlobals with lastToggleState := false } rfl (by decide)⟩

/-- C10: fadeTransition is exactly the sequence of duty-pair writes
`fadeWritePairs`; the loop steps are 0, 2, ..., 30; and every written pair
sums to exactly DIM_BRIGHTNESS, so the two channels are never simultaneously
at or above dim-idle brightness at any written step. -/
theorem fade_write_pairs_spec :
    (∀ (f t : LedPin) (s : GunState),
      fadeTransition f t s =
        fadeWritePairs.foldl (fun acc p => analogWrite t p.2 (analogWrite f p.1 acc)) s) ∧
    fadeSteps = [0, 2, 4, 6, 8, 10, 12, 14, 16, 18, 20, 22, 24, 26, 28, 30] ∧
    ∀ p ∈ fadeWritePairs, p.1 + p.2 = DIM_BRIGHTNESS ∧
      ¬(DIM_BRIGHTNESS ≤ p.1 ∧ DIM_BRIGHTNESS ≤ p.2) :=
  ⟨fadeTransition_eq_foldl_pairs, by decide, by decide⟩

/-- C10 witness: `fade_write_pairs_spec` at the first written pair (30, 0). -/
theorem fade_write_pairs_spec_witness :
    ((30, 0) ∈ fadeWritePairs) ∧
    ((30 : Nat) + (0 : Nat) = DIM_BRIGHTNESS ∧
      ¬(DIM_BRIGHTNESS ≤ 30 ∧ DIM_BRIGHTNESS ≤ (0 : Nat))) :=
  ⟨by decide, fade_write_pairs_spec.2.2 (30, 0) (by decide)⟩

end PortalGun
